import Mathlib

/-!
Verification development for the JobServ CI coordinator
(scheduling / run-lifecycle core).

The definitions below are a shallow embedding of the Python source:

* `checkForTriggerUpgrade` embeds `_check_for_trigger_upgrade`
  (src/jobserv/trigger.py).
* `checkAcked` embeds `_check_acked` (src/jobserv/worker.py).
* `checkQueue` embeds `_check_queue` (src/jobserv/worker.py).
* `workerGetDispatch` / `workerCheckin` embed the dispatch section of
  `worker_get` (src/jobserv/api/worker.py).
* `buildPromote` embeds `build_promote` (src/jobserv/api/build.py).
* `workerFromJwt` / `workerAuthBearer` embed `worker_from_jwt`
  (src/jobserv/worker_jwt.py) and the Bearer branch of
  `worker_authenticated` (src/jobserv/api/worker.py).
* `popQueued` and the small model helpers it uses are modelled from the
  spec, because `jobserv/models.py` (which holds `Run.pop_queued`,
  `Worker.available` and `Build.complete`) is not part of the provided
  source tree; each such definition carries a doc comment saying so.
-/

namespace JobServ

/-- The closed set of statuses shared by Builds and Runs
(`BuildStatus` in jobserv/models.py, enumerated in the spec §3). -/
inductive BuildStatus where
  | QUEUED
  | RUNNING
  | UPLOADING
  | CANCELLING
  | PASSED
  | FAILED
  | CANCELLED
  | PROMOTED
  | SKIPPED
deriving DecidableEq, Repr

/-- A status that still occupies the scheduler: the set
QUEUED / RUNNING / UPLOADING / CANCELLING used by the synchronous-build
blocking rule (spec §4.4 step 2). -/
def BuildStatus.isActive : BuildStatus → Bool
  | .QUEUED => true
  | .RUNNING => true
  | .UPLOADING => true
  | .CANCELLING => true
  | _ => false

/-- Project row: the fields the dispatcher consults. -/
structure Project where
  name : String
  sync_builds : Bool
deriving DecidableEq, Repr

/-- Build row: the fields the dispatcher, promote endpoint and status
refresh consult.  `bid` is the dense per-project `build_id`. -/
structure Build where
  id : Nat
  proj : String
  bid : Nat
  status : BuildStatus
  bname : Option String := none
  annot : Option String := none
deriving DecidableEq, Repr

/-- Run row (jobserv/models.py `Run`): the fields used by the dispatcher
and the background monitor. -/
structure Run where
  id : Nat
  build : Nat
  rname : String
  status : BuildStatus
  host_tag : String
  queue_priority : Int := 0
  worker : Option String := none
  running_acked : Bool := false
deriving DecidableEq, Repr

/-- Worker row: the fields consulted at check-in. -/
structure Worker where
  wname : String
  host_tags : List String
  allowed_tags : List String := []
  enlisted : Bool := false
  online : Bool := false
  surges_only : Bool := false
  deleted : Bool := false
deriving DecidableEq, Repr

/-- A RunEvents row `(run, status, time)` (spec §3: append-only audit
log). -/
structure RunEvent where
  run : Nat
  status : BuildStatus
  time : Nat
deriving DecidableEq, Repr

/-- The relational state the scheduling core reads and writes, plus the
set of surge-marker tags visible to the dispatcher. -/
structure DB where
  projects : List Project
  builds : List Build
  runs : List Run
  events : List RunEvent
  surges : List String := []
deriving DecidableEq, Repr

/-! ## Host-tag glob matching

Modelled from the spec: the matcher itself lives in `jobserv/models.py`
(absent from the source tree).  Spec §8: the match is case-insensitive,
`?` matches exactly one character and `*` matches any sequence. -/

/-- All suffixes of a character list, the list itself and `[]`
included. -/
def suffixes : List Char → List (List Char)
  | [] => [[]]
  | c :: cs => (c :: cs) :: suffixes cs

/-- Modelled from the spec: case-insensitive glob match of a pattern
(`Run.host_tag`, spec §3: may contain `?` and `*`) against a worker
host tag (spec §8): `?` matches exactly one character, `*` any
sequence. -/
def globChars : List Char → List Char → Bool
  | [], cs => cs.isEmpty
  | '*' :: ps, cs => (suffixes cs).any (fun s => globChars ps s)
  | '?' :: ps, _ :: cs => globChars ps cs
  | '?' :: _, [] => false
  | p :: ps, c :: cs => (p.toLower = c.toLower) && globChars ps cs
  | _ :: _, [] => false

/-- Modelled from the spec: glob match on strings (see `globChars`). -/
def globMatch (pat s : String) : Bool :=
  globChars pat.data s.data

/-! ## Trigger upgrade (src/jobserv/trigger.py `_check_for_trigger_upgrade`)

A RunDef is a JSON object; the function only reads and writes its
`trigger_type` key, so we embed the RunDef as an association list of
string keys.  Python dict assignment overwrites the value in place when
the key exists and appends the key otherwise. -/

/-- `d[k] = v` on a Python dict embedded as an association list:
replace the binding in place, or append it. -/
def setKey : List (String × String) → String → String → List (String × String)
  | [], k, v => [(k, v)]
  | (k2, v2) :: rest, k, v =>
    if k2 = k then (k, v) :: rest else (k2, v2) :: setKey rest k v

/-- `d.get(k)` on the embedded dict. -/
def getKey : List (String × String) → String → Option String
  | [], _ => none
  | (k2, v2) :: rest, k => if k2 = k then some v2 else getKey rest k

/-- Embeds `_check_for_trigger_upgrade(rundef, trigger_type,
parent_trigger_type)` from src/jobserv/trigger.py lines 19-34.  The
parent type is `none` when the build is not a chained trigger
(`trigger_runs` is called with `parent_type=None`). -/
def checkForTriggerUpgrade (rundef : List (String × String))
    (triggerType : String) (parentTriggerType : Option String) :
    List (String × String) :=
  if parentTriggerType = some "github_pr" then
    if triggerType = "simple" then setKey rundef "trigger_type" "github_pr"
    else rundef
  else if parentTriggerType = some "git_poller" then
    if triggerType = "simple" then setKey rundef "trigger_type" "git_poller"
    else rundef
  else rundef

/-! ## Dispatcher (`Run.pop_queued`, spec §4.4)

`Run.pop_queued` lives in `jobserv/models.py`, which is not part of the
provided source tree (only its callers in src/jobserv/api/worker.py and
its tests are), so the selection algorithm is modelled from the spec,
steps 1-4 of §4.4. -/

/-- Look up the Build row a Run points at. -/
def DB.findBuild (db : DB) (bid : Nat) : Option Build :=
  db.builds.find? (fun b => b.id = bid)

/-- Look up a Project row by name. -/
def DB.findProject (db : DB) (p : String) : Option Project :=
  db.projects.find? (fun q => q.name = p)

/-- Modelled from the spec (§4.4 step 1): the worker effective host
tags; when `allowed_tags` is present the advertised tags are
intersected with it. -/
def effectiveTags (w : Worker) : List String :=
  if w.allowed_tags.isEmpty then w.host_tags
  else w.host_tags.filter (fun t => w.allowed_tags.contains t)

/-- Modelled from the spec (§4.4 step 1 and precondition 3): a QUEUED
run matches the worker when its `host_tag` glob-matches one of the
worker effective tags or equals the worker name; a `surges_only`
worker only matches through a tag that is currently under surge. -/
def tagMatches (w : Worker) (surges : List String) (r : Run) : Bool :=
  if w.surges_only then
    (effectiveTags w).any (fun t => surges.contains t && globMatch r.host_tag t)
  else
    (effectiveTags w).any (fun t => globMatch r.host_tag t) ||
      r.host_tag = w.wname

/-- Modelled from the spec (§4.4 step 2): whether `r2` is an active run
on a build of the same project strictly earlier than `b`. -/
def runActiveEarlier (db : DB) (b : Build) (r2 : Run) : Bool :=
  match db.findBuild r2.build with
  | none => false
  | some b2 => b2.proj = b.proj && b2.bid < b.bid && r2.status.isActive

/-- Modelled from the spec (§4.4 step 2): a candidate run of a project
with `synchronous_builds=true` is excluded when any run on a strictly
earlier build of the same project has a status in
QUEUED / RUNNING / UPLOADING / CANCELLING. -/
def blockedSync (db : DB) (r : Run) : Bool :=
  match db.findBuild r.build with
  | none => false
  | some b =>
    match db.findProject b.proj with
    | none => false
    | some p => p.sync_builds && db.runs.any (runActiveEarlier db b)

/-- Modelled from the spec (§4.4 steps 1-2): the candidate set of a
check-in. -/
def candidates (db : DB) (w : Worker) : List Run :=
  db.runs.filter (fun r =>
    r.status = BuildStatus.QUEUED && tagMatches w db.surges r &&
      !blockedSync db r)

/-- Strict dispatch preference of spec §4.4 step 3: higher
`queue_priority` first, ties broken by smaller run id. -/
def better (a b : Run) : Bool :=
  b.queue_priority < a.queue_priority ||
    (a.queue_priority = b.queue_priority && a.id < b.id)

/-- Modelled from the spec (§4.4 steps 3-4): the first candidate after
sorting by `(queue_priority DESC, id ASC)`. -/
def selectBest : List Run → Option Run
  | [] => none
  | r :: rs =>
    match selectBest rs with
    | none => some r
    | some b => if better b r then some b else some r

/-- Modelled from the spec (§4.4 step 4): the state update of a
successful pop: the selected run becomes RUNNING, is assigned to the
worker with `running_acked=false`, and a RunEvents row is appended and
committed. -/
def assignRun (db : DB) (w : Worker) (r : Run) (now : Nat) : DB :=
  { db with
    runs := db.runs.map (fun x =>
      if x.id = r.id then
        { x with status := BuildStatus.RUNNING, worker := some w.wname,
                 running_acked := false }
      else x)
    events := db.events ++ [⟨r.id, BuildStatus.RUNNING, now⟩] }

/-- Modelled from the spec (§4.4): `Run.pop_queued(worker)` — pop at
most one matching QUEUED run; on no candidate the state is left
untouched. -/
def popQueued (db : DB) (w : Worker) (now : Nat) : Option Run × DB :=
  match selectBest (candidates db w) with
  | none => (none, db)
  | some r => (some r, assignRun db w r now)

/-! ## The check-in endpoint (`worker_get`, src/jobserv/api/worker.py)

The dispatch section of `worker_get` (lines 118-132) guarded by the
`available_runners` count and `Worker.available`, with the rollback
`except` branch.  `Worker.available` lives in the absent
`jobserv/models.py` and is modelled from the spec. -/

/-- Default of `WORKER_DISK_FREE_THRESHOLD_BYTES`
(src/jobserv/settings.py): 30 GB. -/
def diskFreeThreshold : Nat := 30000000000

/-- Query arguments a worker reports at check-in. -/
structure CheckinArgs where
  available_runners : Nat := 0
  disk_free : Option Nat := none
deriving DecidableEq, Repr

/-- Modelled from the spec: `Worker.available` (jobserv/models.py is
absent).  Spec §4.4 preconditions: the reported free disk must be at
least the configured threshold, else no work is assigned; a worker
that does not report `disk_free` is not rejected (the source tests
dispatch without the argument). -/
def workerAvailable (args : CheckinArgs) : Bool :=
  match args.disk_free with
  | none => true
  | some d => diskFreeThreshold ≤ d

/-- Embeds `worker_get` lines 118-132 (src/jobserv/api/worker.py): the
dispatch attempt with its error handling.  `storageFails` stands for an
exception raised while writing the console line or reading the stored
rundef; in that case the handler sets `worker = None`,
`status = "QUEUED"` by plain attribute assignment (no RunEvents row is
appended by it), commits, and re-raises. -/
def workerGetDispatch (db : DB) (w : Worker) (now : Nat)
    (storageFails : Bool) : Except String (Option Nat) × DB :=
  match popQueued db w now with
  | (none, db2) => (Except.ok none, db2)
  | (some r, db2) =>
    if storageFails then
      (Except.error "storage failure",
       { db2 with
         runs := db2.runs.map (fun x =>
           if x.id = r.id then
             { x with worker := none, status := BuildStatus.QUEUED }
           else x) })
    else (Except.ok (some r.id), db2)

/-- Embeds the guard `if runners > 0 and w.available` of `worker_get`
(line 119) around the dispatch, in the non-failing storage case:
the response either carries the popped run id or no run-defs at all. -/
def workerCheckin (db : DB) (w : Worker) (args : CheckinArgs) (now : Nat) :
    Option Nat × DB :=
  if args.available_runners > 0 && workerAvailable args then
    match popQueued db w now with
    | (some r, db2) => (some r.id, db2)
    | (none, db2) => (none, db2)
  else (none, db)

/-! ## Acked check (src/jobserv/worker.py `_check_acked`, lines 245-277) -/

/-- `r.status_events[-1].time`: RunEvents rows of a run in insertion
order; the last one is the most recent transition (spec §3). -/
def lastEventTime (db : DB) (rid : Nat) : Option Nat :=
  ((db.events.filter (fun e => e.run = rid)).getLast?).map (fun e => e.time)

/-- The requeue condition of `_check_acked`: RUNNING, not acked, has at
least one event, and `now > last_event.time + 15` (seconds). -/
def ackExpired (db : DB) (now : Nat) (r : Run) : Bool :=
  r.status = BuildStatus.RUNNING && !r.running_acked &&
    match lastEventTime db r.id with
    | none => false
    | some t => t + 15 < now

/-- Embeds `_check_acked` (src/jobserv/worker.py lines 245-277).  The
effect of the requeue (`r.status = BuildStatus.QUEUED`) goes through
the Run model in the absent jobserv/models.py and is modelled from the
spec (§4.6 acked check): set status QUEUED, clear the worker
reference, append a RunEvents row. -/
def checkAcked (db : DB) (now : Nat) : DB :=
  { db with
    runs := db.runs.map (fun r =>
      if ackExpired db now r then
        { r with status := BuildStatus.QUEUED, worker := none }
      else r)
    events := db.events ++
      (db.runs.filter (ackExpired db now)).map
        (fun r => ⟨r.id, BuildStatus.QUEUED, now⟩) }

/-! ## Queue check (src/jobserv/worker.py `_check_queue`, lines 101-175) -/

/-- One entry of the `hosts` dict of `_check_queue`: remaining supply
slots (`SURGE_SUPPORT_RATIO` initially) and the worker host tags. -/
structure HostSlots where
  hname : String
  slots : Nat
  tags : List String
deriving DecidableEq, Repr

/-- A surge-marker file `enable_surge-<tag>`: its mtime and its content
(the id of the notification written at creation). -/
structure Marker where
  tag : String
  mtime : Nat
  content : String
deriving DecidableEq, Repr

/-- Modelled from the spec: `notify_surge_started` (jobserv/notify.py
is absent from the source tree) returns the message id of the "surge
started" notification for a tag. -/
def notifySurgeStarted (tag : String) : String :=
  "surge-started-msg-" ++ tag

/-- The inner `for run in queued` loop of `_check_queue`: claim the
first still-unclaimed queued entry whose tag is in the host tags;
`none` when no entry matches. -/
def claimFirst : List (String × Bool) → List String → Option (List (String × Bool))
  | [], _ => none
  | (t, unclaimed) :: rest, tags =>
    if unclaimed && tags.contains t then some ((t, false) :: rest)
    else (claimFirst rest tags).map (fun q => (t, unclaimed) :: q)

/-- One pass of the `for name in list(hosts.keys())` loop of
`_check_queue`: every host with remaining slots claims at most one run;
a host reaching zero slots is removed; returns the remaining hosts, the
updated queue, and whether any claim happened (`matches_found`). -/
def onePass : List HostSlots → List (String × Bool) →
    List HostSlots × List (String × Bool) × Bool
  | [], q => ([], q, false)
  | h :: hs, q =>
    if h.slots > 0 then
      match claimFirst q h.tags with
      | some q2 =>
        let rest := onePass hs q2
        let h2 : HostSlots := { h with slots := h.slots - 1 }
        ((if h2.slots = 0 then rest.1 else h2 :: rest.1), rest.2.1, true)
      | none =>
        let rest := onePass hs q
        (h :: rest.1, rest.2.1, rest.2.2)
    else
      let rest := onePass hs q
      (h :: rest.1, rest.2.1, rest.2.2)

/-- The `while matches_found` loop of `_check_queue`.  Each pass that
reports a match claims at least one of the queued entries, so
`queued.length + 1` passes always reach the pass with no match; the
fuel argument is instantiated with that bound and never runs out. -/
def rrLoop : Nat → List HostSlots → List (String × Bool) → List (String × Bool)
  | 0, _, q => q
  | fuel + 1, hs, q =>
    let step := onePass hs q
    if step.2.2 then rrLoop fuel step.1 step.2.1 else step.2.1

/-- The workers admitted to the supply computation
(`_check_queue` lines 109-120): enlisted, online, not surges-only, not
deleted; each contributes `SURGE_SUPPORT_RATIO` slots. -/
def initialHosts (ratio : Nat) (workers : List Worker) : List HostSlots :=
  (workers.filter (fun w =>
    w.enlisted && w.online && !w.surges_only && !w.deleted)).map
    (fun w => ⟨w.wname, ratio, w.host_tags⟩)

/-- Insert a run into a list sorted by ascending id
(the `order_by(Run.id)` of `_check_queue` line 103). -/
def insertById (r : Run) : List Run → List Run
  | [] => [r]
  | x :: xs => if r.id ≤ x.id then r :: x :: xs else x :: insertById r xs

/-- Sort runs by ascending id. -/
def sortById (l : List Run) : List Run := l.foldr insertById []

/-- The marker cleanup loop of `_check_queue` (lines 144-164): a marker
whose tag is still over supply is kept; otherwise it is kept while it
is younger than 300 seconds and flapping detection is on, and deleted
(with a "surge ended" notification) otherwise.  Returns the surviving
markers and the tags whose "surge ended" notification was emitted. -/
def cleanupMarkers (detect : Bool) (now : Nat) (st : List String) :
    List Marker → List Marker × List String
  | [] => ([], [])
  | m :: ms =>
    if st.contains m.tag then
      (m :: (cleanupMarkers detect now st ms).1,
       (cleanupMarkers detect now st ms).2)
    else if now - m.mtime < 300 && detect then
      (m :: (cleanupMarkers detect now st ms).1,
       (cleanupMarkers detect now st ms).2)
    else
      ((cleanupMarkers detect now st ms).1,
       m.tag :: (cleanupMarkers detect now st ms).2)

/-- The marker creation loop of `_check_queue` (lines 166-175): for
every over-supply tag without an existing marker, write a marker whose
content is the id of the "surge started" notification.  Returns the
final markers and the tags whose "surge started" notification was
emitted. -/
def createMarkers (now : Nat) : List Marker → List String →
    List Marker × List String
  | ms, [] => (ms, [])
  | ms, t :: ts =>
    if ms.any (fun m => m.tag = t) then createMarkers now ms ts
    else
      ((createMarkers now (ms ++ [⟨t, now, notifySurgeStarted t⟩]) ts).1,
       t :: (createMarkers now (ms ++ [⟨t, now, notifySurgeStarted t⟩]) ts).2)

/-- Result of one queue-check sweep: the marker files afterwards and
the notifications emitted. -/
structure SurgeSweepResult where
  markers : List Marker
  started : List String
  ended : List String
deriving DecidableEq, Repr

/-- The queue after the round-robin supply computation of
`_check_queue` (lines 101-138): QUEUED runs in id order paired with
their unclaimed flag, after every admitted worker consumed up to
`SURGE_SUPPORT_RATIO` matching entries. -/
def afterRoundRobin (db : DB) (workers : List Worker) (ratio : Nat) :
    List (String × Bool) :=
  rrLoop
    (((sortById (db.runs.filter
        (fun r => r.status = BuildStatus.QUEUED))).map
      (fun r => (r.host_tag, true))).length + 1)
    (initialHosts ratio workers)
    ((sortById (db.runs.filter
        (fun r => r.status = BuildStatus.QUEUED))).map
      (fun r => (r.host_tag, true)))

/-- The tags left with at least one unclaimed queued run: the key set
of the `surges` dict of `_check_queue` (lines 139-142). -/
def surgeTagsOf (db : DB) (workers : List Worker) (ratio : Nat) :
    List String :=
  ((afterRoundRobin db workers ratio).filter (fun p => p.2)).map
    (fun p => p.1)

/-- The number of queued runs of a tag left unclaimed by the supply
computation of one sweep (the `surges[tag]` count). -/
def unclaimedCount (db : DB) (workers : List Worker) (ratio : Nat)
    (tag : String) : Nat :=
  (((afterRoundRobin db workers ratio).filter (fun p => p.2)).filter
    (fun p => p.1 = tag)).length

/-- Embeds `_check_queue` (src/jobserv/worker.py lines 101-175):
`detect` is the module flag `DETECT_FLAPPING` (constant `True` outside
unit tests), `ratio` is `SURGE_SUPPORT_RATIO` (default 3).  Cleanup of
stale markers runs first, then markers are created for over-supply
tags without one. -/
def checkQueue (db : DB) (workers : List Worker) (markers : List Marker)
    (now ratio : Nat) (detect : Bool) : SurgeSweepResult :=
  ⟨(createMarkers now
      (cleanupMarkers detect now (surgeTagsOf db workers ratio) markers).1
      (surgeTagsOf db workers ratio)).1,
   (createMarkers now
      (cleanupMarkers detect now (surgeTagsOf db workers ratio) markers).1
      (surgeTagsOf db workers ratio)).2,
   (cleanupMarkers detect now (surgeTagsOf db workers ratio) markers).2⟩

/-! ## Build promotion (src/jobserv/api/build.py `build_promote`,
lines 141-158) -/

/-- Modelled from the spec: `Build.complete` (jobserv/models.py is
absent).  Spec §3: a Build reaches PASSED / FAILED / CANCELLED when all
runs terminate and PROMOTED is a manual post-terminal state, so a
build is complete exactly in those statuses. -/
def buildComplete (b : Build) : Bool :=
  match b.status with
  | .PASSED => true
  | .FAILED => true
  | .CANCELLED => true
  | .PROMOTED => true
  | _ => false

/-- The `{name, annotation}` payload of a promote request. -/
structure PromoteData where
  pname : Option String := none
  annot : Option String := none
deriving DecidableEq, Repr

/-- Embeds `build_promote` (src/jobserv/api/build.py lines 141-158):
400 when the build is not complete, 400 when no JSON payload was
posted, else set status PROMOTED, store name and annotation, 201. -/
def buildPromote (b : Build) (data : Option PromoteData) :
    Except (Nat × String) (Nat × Build) :=
  if !buildComplete b then Except.error (400, "Build is not yet complete")
  else
    match data with
    | none => Except.error (400, "Input data must be JSON")
    | some d =>
      Except.ok (201,
        { b with status := BuildStatus.PROMOTED, bname := d.pname,
                 annot := d.annot })

/-! ## Worker bearer JWT (src/jobserv/worker_jwt.py `worker_from_jwt`
and the Bearer branch of `worker_authenticated`,
src/jobserv/api/worker.py lines 43-84) -/

/-- A certificate loaded from `WORKER_JWTS_DIR`: its key id and the
organizational-unit attributes that become `allowed_tags`. -/
structure Cert where
  keyid : String
  orgUnits : List String
deriving DecidableEq, Repr

/-- An already-parsed bearer token: its `kid` header, the key id whose
certificate verifies its signature (if any), and its `exp` / `name`
claims. -/
structure Jwt where
  kid : Option String := none
  sigValidFor : Option String := none
  exp : Option Nat := none
  jname : Option String := none
deriving DecidableEq, Repr

/-- The `PyJWTError` subclasses `worker_from_jwt` can raise. -/
inductive JwtError where
  | decodeError (msg : String)
  | invalidKey (msg : String)
  | expiredSignature
  | invalidSignature
  | missingClaim (claim : String)
deriving DecidableEq, Repr

/-- `str(e)` on the raised error, as returned in the 401 body by
`worker_authenticated`. -/
def JwtError.message : JwtError → String
  | .decodeError m => m
  | .invalidKey m => m
  | .expiredSignature => "Signature has expired"
  | .invalidSignature => "Signature verification failed"
  | .missingClaim c => "Token is missing the \"" ++ c ++ "\" claim"

/-- The value `worker_from_jwt` returns. -/
structure WorkerJWT where
  jwname : String
  allowed_tags : List String
deriving DecidableEq, Repr

/-- Embeds `worker_from_jwt` (src/jobserv/worker_jwt.py lines 76-102):
missing `kid` header raises DecodeError; a `kid` matching no loaded
certificate raises InvalidKeyError; `jwt.decode` verifies the signature
against the certificate (and `exp` when present); a missing `exp`
claim raises MissingRequiredClaimError("exp"); then a missing `name`
claim raises MissingRequiredClaimError("name"); `allowed_tags` comes
from the certificate OU attributes. -/
def workerFromJwt (keys : List Cert) (tok : Jwt) (now : Nat) :
    Except JwtError WorkerJWT :=
  match tok.kid with
  | none => Except.error (JwtError.decodeError
      "Token is missing required `kid` header")
  | some kid =>
    match keys.find? (fun c => c.keyid = kid) with
    | none => Except.error (JwtError.invalidKey
        ("No certificate found with id " ++ kid))
    | some cert =>
      if tok.sigValidFor ≠ some kid then
        Except.error JwtError.invalidSignature
      else
        match tok.exp with
        | none => Except.error (JwtError.missingClaim "exp")
        | some e =>
          if e ≤ now then Except.error JwtError.expiredSignature
          else
            match tok.jname with
            | none => Except.error (JwtError.missingClaim "name")
            | some n => Except.ok ⟨n, cert.orgUnits⟩

/-- Outcome of the authentication wrapper. -/
inductive AuthResult where
  | denied (code : Nat) (msg : String)
  | authed (w : Worker)
deriving DecidableEq, Repr

/-- Embeds the Bearer branch of `worker_authenticated`
(src/jobserv/api/worker.py lines 53-73): a `PyJWTError` becomes a 401
carrying `str(e)`; a name mismatch with the URL is a 404; an unknown
name auto-creates an enlisted Worker record whose `host_tags`
constructor argument is the token `allowed_tags` (line 69); the worker
record gets `allowed_tags` from the token.  Returns the outcome and
the Worker table afterwards. -/
def workerAuthBearer (keys : List Cert) (tok : Jwt) (now : Nat)
    (urlName : String) (workers : List Worker) :
    AuthResult × List Worker :=
  match workerFromJwt keys tok now with
  | Except.error e => (AuthResult.denied 401 e.message, workers)
  | Except.ok wj =>
    if wj.jwname ≠ urlName then (AuthResult.denied 404 "Not found", workers)
    else
      match workers.find? (fun w => w.wname = wj.jwname) with
      | some w =>
        let w2 := { w with allowed_tags := wj.allowed_tags }
        (AuthResult.authed w2,
         workers.map (fun x => if x.wname = wj.jwname then w2 else x))
      | none =>
        let w : Worker :=
          { wname := wj.jwname, host_tags := wj.allowed_tags,
            allowed_tags := wj.allowed_tags, enlisted := true }
        (AuthResult.authed w, workers ++ [w])

/-! ## Concrete states used by witnesses and counterexamples

They mirror the fixtures of src/tests/test_api_worker.py and
src/tests/test_worker.py. -/

/-- Worker `w1` of the dispatch tests: enlisted, online, tag
`aarch96`. -/
def exW : Worker :=
  { wname := "w1", host_tags := ["aarch96"], enlisted := true, online := true }

/-- The same worker after `w.host_tags = ["aarch97"]`. -/
def exW97 : Worker := { exW with host_tags := ["aarch97"] }

/-- The state of `test_worker_sync_builds`: sync project `job-1` with
build 1 (one RUNNING run, one QUEUED run) and build 2 (one QUEUED run
on another tag), non-sync project `job-2` with one QUEUED run. -/
def exSyncDB : DB :=
  { projects := [⟨"job-1", true⟩, ⟨"job-2", false⟩]
    builds :=
      [{ id := 1, proj := "job-1", bid := 1, status := BuildStatus.RUNNING },
       { id := 2, proj := "job-1", bid := 2, status := BuildStatus.QUEUED },
       { id := 3, proj := "job-2", bid := 1, status := BuildStatus.QUEUED }]
    runs :=
      [{ id := 1, build := 1, rname := "p1b1r1",
         status := BuildStatus.RUNNING, host_tag := "aarch96" },
       { id := 2, build := 1, rname := "p1b1r2",
         status := BuildStatus.QUEUED, host_tag := "aarch96" },
       { id := 3, build := 2, rname := "p1b2r1",
         status := BuildStatus.QUEUED, host_tag := "aarch97" },
       { id := 4, build := 3, rname := "p2b1r1",
         status := BuildStatus.QUEUED, host_tag := "aarch97" }]
    events := [] }

/-- The state of `test_worker_queue_priority`: one build with run `r1`
(priority 0) and run `r2` (priority 2), both QUEUED on tag
`aarch96`. -/
def exPrioDB : DB :=
  { projects := [⟨"job-1", true⟩]
    builds := [{ id := 1, proj := "job-1", bid := 1, status := BuildStatus.QUEUED }]
    runs :=
      [{ id := 1, build := 1, rname := "r1",
         status := BuildStatus.QUEUED, host_tag := "aarch96" },
       { id := 2, build := 1, rname := "r2",
         status := BuildStatus.QUEUED, host_tag := "aarch96",
         queue_priority := 2 }]
    events := [] }

/-- A state with a single QUEUED run matching `exW`, used for the
rollback scenario. -/
def exOneRunDB : DB :=
  { projects := [⟨"job-1", false⟩]
    builds := [{ id := 1, proj := "job-1", bid := 1, status := BuildStatus.QUEUED }]
    runs :=
      [{ id := 1, build := 1, rname := "run0",
         status := BuildStatus.QUEUED, host_tag := "aarch96" }]
    events := [] }

/-- A RUNNING, never-acked run whose only event is 16 seconds old,
as in scenario 5 of the spec (§8). -/
def exAckDB : DB :=
  { projects := [⟨"job-1", false⟩]
    builds := [{ id := 1, proj := "job-1", bid := 1, status := BuildStatus.RUNNING }]
    runs :=
      [{ id := 1, build := 1, rname := "run0",
         status := BuildStatus.RUNNING, host_tag := "aarch96",
         worker := some "w1", running_acked := false }]
    events := [⟨1, BuildStatus.RUNNING, 0⟩] }

/-- The state of `test_surge_simple`: `SURGE_SUPPORT_RATIO + 1 = 4`
QUEUED runs on tag `amd64` and one online worker for the tag. -/
def exSurgeDB : DB :=
  { projects := [⟨"proj1", false⟩]
    builds := [{ id := 1, proj := "proj1", bid := 1, status := BuildStatus.QUEUED }]
    runs :=
      [{ id := 1, build := 1, rname := "run0",
         status := BuildStatus.QUEUED, host_tag := "amd64" },
       { id := 2, build := 1, rname := "run1",
         status := BuildStatus.QUEUED, host_tag := "amd64" },
       { id := 3, build := 1, rname := "run2",
         status := BuildStatus.QUEUED, host_tag := "amd64" },
       { id := 4, build := 1, rname := "run3",
         status := BuildStatus.QUEUED, host_tag := "amd64" }]
    events := [] }

/-- The `amd64` worker of `test_surge_simple`. -/
def exSurgeW : Worker :=
  { wname := "w1", host_tags := ["amd64"], enlisted := true, online := true }

/-- `test_surge_simple` after one run is deleted: 3 QUEUED `amd64`
runs, exactly the supply of the single worker. -/
def exSurgeDB2 : DB :=
  { exSurgeDB with
    runs :=
      [{ id := 2, build := 1, rname := "run1",
         status := BuildStatus.QUEUED, host_tag := "amd64" },
       { id := 3, build := 1, rname := "run2",
         status := BuildStatus.QUEUED, host_tag := "amd64" },
       { id := 4, build := 1, rname := "run3",
         status := BuildStatus.QUEUED, host_tag := "amd64" }] }

/-- The surge marker created at time 1000 for tag `amd64`. -/
def exMarker : Marker := ⟨"amd64", 1000, notifySurgeStarted "amd64"⟩

/-- The state of `test_worker_sync_builds_across_tags` after the first
build failed: sync project `job-1` with a FAILED run on build 1 and a
QUEUED run on build 2, so build 2 is no longer blocked. -/
def exSyncDB2 : DB :=
  { projects := [⟨"job-1", true⟩]
    builds :=
      [{ id := 1, proj := "job-1", bid := 1, status := BuildStatus.FAILED },
       { id := 2, proj := "job-1", bid := 2, status := BuildStatus.QUEUED }]
    runs :=
      [{ id := 1, build := 1, rname := "p1b1r1",
         status := BuildStatus.FAILED, host_tag := "amd64" },
       { id := 2, build := 2, rname := "p1b2r1",
         status := BuildStatus.QUEUED, host_tag := "aarch64" }]
    events := [] }

/-- The `aarch64` worker of `test_worker_sync_builds_across_tags`. -/
def exW64 : Worker :=
  { wname := "w1", host_tags := ["aarch64"], enlisted := true, online := true }

/-- A complete (PASSED) build, for the promote witness. -/
def exDoneBuild : Build :=
  { id := 1, proj := "p1", bid := 1, status := BuildStatus.PASSED }

/-- An example rundef as an association list, as `get_run_definition`
produces it (spec §6: required keys). -/
def exRunDef : List (String × String) :=
  [("run_url", "u"), ("runner_url", "v"), ("api_key", "k"),
   ("trigger_type", "simple"), ("container", "c"), ("script", "s")]

/-! ## Helper lemmas -/

theorem getKey_setKey_same (l : List (String × String)) (k v : String) :
    getKey (setKey l k v) k = some v := by
  induction l with
  | nil => simp [setKey, getKey]
  | cons hd tl ih =>
    obtain ⟨k2, v2⟩ := hd
    by_cases h : k2 = k
    · simp [setKey, getKey, h]
    · simp [setKey, getKey, h, ih]

theorem getKey_setKey_other (l : List (String × String)) (k k2 v : String)
    (h : k2 ≠ k) : getKey (setKey l k v) k2 = getKey l k2 := by
  induction l with
  | nil => simp [setKey, getKey, h, Ne.symm h]
  | cons hd tl ih =>
    obtain ⟨k3, v3⟩ := hd
    by_cases h3 : k3 = k
    · subst h3
      simp [setKey, getKey, h, Ne.symm h]
    · by_cases h4 : k3 = k2 <;> simp [setKey, getKey, h, h3, h4, ih]

theorem runActiveEarlier_eq (db : DB) (b : Build) (r2 : Run) (b2 : Build)
    (h : db.findBuild r2.build = some b2) :
    runActiveEarlier db b r2 =
      (decide (b2.proj = b.proj) && decide (b2.bid < b.bid) &&
        r2.status.isActive) := by
  unfold runActiveEarlier
  rw [h]

theorem runActiveEarlier_none (db : DB) (b : Build) (r2 : Run)
    (h : db.findBuild r2.build = none) :
    runActiveEarlier db b r2 = false := by
  unfold runActiveEarlier
  rw [h]

theorem blockedSync_eq (db : DB) (r : Run) (b : Build) (p : Project)
    (hb : db.findBuild r.build = some b)
    (hp : db.findProject b.proj = some p) :
    blockedSync db r = (p.sync_builds && db.runs.any (runActiveEarlier db b)) := by
  unfold blockedSync
  rw [hb]
  have step : (match db.findProject b.proj with
      | none => false
      | some p => p.sync_builds && db.runs.any (runActiveEarlier db b)) =
      (p.sync_builds && db.runs.any (runActiveEarlier db b)) := by
    rw [hp]
  exact step

theorem blockedSync_build_none (db : DB) (r : Run)
    (h : db.findBuild r.build = none) : blockedSync db r = false := by
  unfold blockedSync
  rw [h]

theorem blockedSync_proj_none (db : DB) (r : Run) (b : Build)
    (hb : db.findBuild r.build = some b)
    (hp : db.findProject b.proj = none) : blockedSync db r = false := by
  unfold blockedSync
  rw [hb]
  have step : (match db.findProject b.proj with
      | none => false
      | some p => p.sync_builds && db.runs.any (runActiveEarlier db b)) =
      false := by
    rw [hp]
  exact step

theorem surgeTags_iff (l : List (String × Bool)) (tag : String) :
    tag ∈ l.map (fun p => p.1) ↔
      0 < (l.filter (fun p => p.1 = tag)).length := by
  rw [List.length_pos_iff_exists_mem]
  constructor
  · intro hmem
    rcases List.mem_map.mp hmem with ⟨p, hp, hfst⟩
    exact ⟨p, List.mem_filter.mpr ⟨hp, by simp [hfst]⟩⟩
  · rintro ⟨p, hp⟩
    rcases List.mem_filter.mp hp with ⟨hmem, htag⟩
    exact List.mem_map.mpr ⟨p, hmem, by simpa using htag⟩

theorem cleanupMarkers_subset (detect : Bool) (now : Nat) (st : List String)
    (ms : List Marker) (m : Marker)
    (h : m ∈ (cleanupMarkers detect now st ms).1) : m ∈ ms := by
  induction ms with
  | nil => simp [cleanupMarkers] at h
  | cons m0 ms ih =>
    unfold cleanupMarkers at h
    split_ifs at h
    · rcases List.mem_cons.mp h with rfl | hm
      · exact List.mem_cons_self _ _
      · exact List.mem_cons_of_mem _ (ih hm)
    · rcases List.mem_cons.mp h with rfl | hm
      · exact List.mem_cons_self _ _
      · exact List.mem_cons_of_mem _ (ih hm)
    · exact List.mem_cons_of_mem _ (ih h)

theorem cleanupMarkers_drop (detect : Bool) (now : Nat) (st : List String)
    (ms : List Marker) (m : Marker) (hm : m ∈ ms)
    (h : m ∉ (cleanupMarkers detect now st ms).1) :
    st.contains m.tag = false ∧
      (decide (now - m.mtime < 300) && detect) = false := by
  induction ms with
  | nil => cases hm
  | cons m0 ms ih =>
    unfold cleanupMarkers at h
    split_ifs at h with h1 h2
    · rcases List.mem_cons.mp hm with rfl | hmem
      · exact absurd (List.mem_cons_self _ _) h
      · exact ih hmem (fun hh => h (List.mem_cons_of_mem _ hh))
    · rcases List.mem_cons.mp hm with rfl | hmem
      · exact absurd (List.mem_cons_self _ _) h
      · exact ih hmem (fun hh => h (List.mem_cons_of_mem _ hh))
    · rcases List.mem_cons.mp hm with rfl | hmem
      · exact ⟨Bool.eq_false_iff.mpr h1, Bool.eq_false_iff.mpr h2⟩
      · exact ih hmem h

theorem createMarkers_preserve (now : Nat) (ms : List Marker)
    (ts : List String) (m : Marker) (hm : m ∈ ms) :
    m ∈ (createMarkers now ms ts).1 := by
  induction ts generalizing ms with
  | nil => simpa [createMarkers] using hm
  | cons t0 ts ih =>
    unfold createMarkers
    split_ifs
    · exact ih ms hm
    · exact ih _ (List.mem_append_left _ hm)

theorem createMarkers_covers (now : Nat) (ms : List Marker)
    (ts : List String) (t : String) (ht : t ∈ ts) :
    ∃ m ∈ (createMarkers now ms ts).1, m.tag = t := by
  induction ts generalizing ms with
  | nil => cases ht
  | cons t0 ts ih =>
    unfold createMarkers
    rcases List.mem_cons.mp ht with rfl | hts
    · split_ifs with h1
      · rcases List.any_eq_true.mp h1 with ⟨m, hmem, htag⟩
        exact ⟨m, createMarkers_preserve now ms ts m hmem, by simpa using htag⟩
      · refine ⟨⟨t, now, notifySurgeStarted t⟩, ?_, rfl⟩
        exact createMarkers_preserve now _ ts _
          (List.mem_append_right _ (List.mem_singleton.mpr rfl))
    · split_ifs
      · exact ih ms hts
      · exact ih _ hts

theorem createMarkers_content (now : Nat) (ms : List Marker)
    (ts : List String)
    (hinv : ∀ m ∈ ms, m.content = notifySurgeStarted m.tag) :
    ∀ m ∈ (createMarkers now ms ts).1,
      m.content = notifySurgeStarted m.tag := by
  induction ts generalizing ms with
  | nil =>
    intro m hm
    exact hinv m (by simpa [createMarkers] using hm)
  | cons t0 ts ih =>
    intro m hm
    unfold createMarkers at hm
    split_ifs at hm
    · exact ih ms hinv m hm
    · refine ih _ ?_ m hm
      intro m2 hm2
      rcases List.mem_append.mp hm2 with hh | hh
      · exact hinv m2 hh
      · rcases List.mem_singleton.mp hh with rfl
        rfl

theorem better_irrefl (a : Run) : better a a = false := by
  simp [better]

theorem better_asymm (a b : Run) (h : better a b = true) :
    better b a = false := by
  simp [better] at *
  omega

theorem better_trans_neg (a b c : Run) (h1 : better a b = false)
    (h2 : better b c = false) : better a c = false := by
  simp [better] at *
  omega

theorem selectBest_none (l : List Run) (h : selectBest l = none) : l = [] := by
  cases l with
  | nil => rfl
  | cons a rs =>
    simp only [selectBest] at h
    cases hrec : selectBest rs <;> rw [hrec] at h <;> simp at h
    split at h <;> simp at h

theorem selectBest_spec (l : List Run) (r : Run) (h : selectBest l = some r) :
    r ∈ l ∧ ∀ x ∈ l, better x r = false := by
  induction l generalizing r with
  | nil => simp [selectBest] at h
  | cons a rs ih =>
    simp only [selectBest] at h
    cases hrec : selectBest rs with
    | none =>
      rw [hrec] at h
      simp at h
      subst h
      have hnil := selectBest_none rs hrec
      subst hnil
      exact ⟨List.mem_singleton.mpr rfl, by simp [better_irrefl]⟩
    | some b =>
      rw [hrec] at h
      have h2 : (if better b a = true then some b else some a) = some r := h
      obtain ⟨hmem, hopt⟩ := ih b hrec
      by_cases hba : better b a = true
      · rw [if_pos hba] at h2
        simp at h2
        subst h2
        refine ⟨List.mem_cons_of_mem a hmem, ?_⟩
        intro x hx
        rcases List.mem_cons.mp hx with hxa | hxrs
        · subst hxa
          exact better_asymm b x hba
        · exact hopt x hxrs
      · rw [if_neg hba] at h2
        simp at h2
        subst h2
        refine ⟨List.mem_cons_self a rs, ?_⟩
        intro x hx
        rcases List.mem_cons.mp hx with hxa | hxrs
        · subst hxa
          exact better_irrefl x
        · exact better_trans_neg x b a (hopt x hxrs)
            (Bool.eq_false_iff.mpr hba)

/-! ## Claim theorems -/

/-- C7: while building RunDefs for chained runs, the `trigger_type` of
the child RunDef is rewritten to the trigger type of the parent build
exactly when the parent type is `github_pr` or `git_poller` and the
type of the child trigger entry is `simple`; in every other case the
RunDef is returned unchanged. -/
theorem checkForTriggerUpgrade_characterization
    (rundef : List (String × String)) (tt : String) (pt : Option String) :
    checkForTriggerUpgrade rundef tt pt =
      (if (pt = some "github_pr" ∨ pt = some "git_poller") ∧ tt = "simple"
       then setKey rundef "trigger_type" (pt.getD "")
       else rundef) ∧
    ((pt = some "github_pr" ∨ pt = some "git_poller") → tt = "simple" →
      getKey (checkForTriggerUpgrade rundef tt pt) "trigger_type" = pt) := by
  constructor
  · unfold checkForTriggerUpgrade
    rcases pt with _ | s
    · simp
    · by_cases h1 : s = "github_pr" <;> by_cases h2 : s = "git_poller" <;>
        by_cases h3 : tt = "simple" <;> simp_all
  · rintro (h | h) h3 <;> subst h <;>
      simp [checkForTriggerUpgrade, h3, getKey_setKey_same]

/-- C7 witness: on the example rundef with a `simple` child under a
`github_pr` parent the rewrite fires and yields `github_pr`. -/
theorem checkForTriggerUpgrade_characterization_witness :
    checkForTriggerUpgrade exRunDef "simple" (some "github_pr") =
      (if (some "github_pr" = some "github_pr" ∨
            some "github_pr" = some "git_poller") ∧ "simple" = "simple"
       then setKey exRunDef "trigger_type" ((some "github_pr").getD "")
       else exRunDef) ∧
    getKey (checkForTriggerUpgrade exRunDef "simple" (some "github_pr"))
        "trigger_type" = some "github_pr" := by
  have h := checkForTriggerUpgrade_characterization exRunDef "simple"
    (some "github_pr")
  exact ⟨h.1, h.2 (Or.inl rfl) rfl⟩

/-- C10: the trigger-upgrade transformation reads and writes nothing
but the `trigger_type` key (every other key is preserved for all
inputs), and for every parent/child combination other than
`(github_pr, simple)` and `(git_poller, simple)` — in particular for a
`gitlab_mr` parent — the RunDef is returned entirely unchanged. -/
theorem checkForTriggerUpgrade_frame
    (rundef : List (String × String)) (tt : String) (pt : Option String)
    (k : String) (hk : k ≠ "trigger_type") :
    getKey (checkForTriggerUpgrade rundef tt pt) k = getKey rundef k ∧
    (¬((pt = some "github_pr" ∨ pt = some "git_poller") ∧ tt = "simple") →
      checkForTriggerUpgrade rundef tt pt = rundef) := by
  constructor
  · unfold checkForTriggerUpgrade
    split_ifs <;> first
      | rfl
      | exact getKey_setKey_other rundef "trigger_type" k _ hk
  · intro hno
    unfold checkForTriggerUpgrade
    split_ifs with h1 h2 h3 h4
    · exact absurd ⟨Or.inl h1, h2⟩ hno
    · rfl
    · exact absurd ⟨Or.inr h3, h4⟩ hno
    · rfl
    · rfl

/-- C10 witness: every key of the example rundef other than
`trigger_type` survives an upgrade unchanged (checked at `container`);
a `gitlab_mr` parent with a `simple` child and a `github_pr` parent
with a non-`simple` child both leave the RunDef byte-identical. -/
theorem checkForTriggerUpgrade_frame_witness :
    getKey (checkForTriggerUpgrade exRunDef "simple" (some "github_pr"))
        "container" = getKey exRunDef "container" ∧
    checkForTriggerUpgrade exRunDef "simple" (some "gitlab_mr") = exRunDef ∧
    checkForTriggerUpgrade exRunDef "other" (some "github_pr") = exRunDef :=
  ⟨(checkForTriggerUpgrade_frame exRunDef "simple" (some "github_pr")
      "container" (by decide)).1,
   (checkForTriggerUpgrade_frame exRunDef "simple" (some "gitlab_mr")
      "container" (by decide)).2 (by decide),
   (checkForTriggerUpgrade_frame exRunDef "other" (some "github_pr")
      "container" (by decide)).2 (by decide)⟩

/-- C8: promoting an incomplete build fails with 400 and leaves the
build unchanged; promoting a complete build stores the supplied name
and annotation, sets status PROMOTED and returns 201. -/
theorem buildPromote_spec (b : Build) (d : PromoteData) :
    (buildComplete b = false →
      buildPromote b (some d) =
        Except.error (400, "Build is not yet complete")) ∧
    (buildComplete b = true →
      buildPromote b (some d) = Except.ok (201,
        { b with status := BuildStatus.PROMOTED, bname := d.pname,
                 annot := d.annot })) := by
  constructor <;> intro h <;> simp [buildPromote, h]

/-- C8 witness: a PASSED build promotes with 201 and a RUNNING build is
refused with 400. -/
theorem buildPromote_spec_witness :
    buildPromote exDoneBuild (some ⟨some "v1", some "notes"⟩) =
      Except.ok (201,
        { exDoneBuild with status := BuildStatus.PROMOTED,
                           bname := some "v1", annot := some "notes" }) ∧
    buildPromote { exDoneBuild with status := BuildStatus.RUNNING }
        (some ⟨none, none⟩) =
      Except.error (400, "Build is not yet complete") :=
  ⟨(buildPromote_spec exDoneBuild ⟨some "v1", some "notes"⟩).2 (by decide),
   (buildPromote_spec { exDoneBuild with status := BuildStatus.RUNNING }
      ⟨none, none⟩).1 (by decide)⟩

/-- C9: a bearer token without a `kid` header, with a `kid` matching no
loaded certificate, or whose decoded payload lacks the `exp` claim is
rejected with 401 (the last with a message naming `exp`), and the
Worker table is left untouched — no record is created and no run can
be dispatched. -/
theorem workerAuthBearer_failures (keys : List Cert) (tok : Jwt) (now : Nat)
    (urlName : String) (workers : List Worker) :
    (tok.kid = none →
      workerAuthBearer keys tok now urlName workers =
        (AuthResult.denied 401 "Token is missing required `kid` header",
         workers)) ∧
    (∀ kid, tok.kid = some kid →
      keys.find? (fun c => c.keyid = kid) = none →
      workerAuthBearer keys tok now urlName workers =
        (AuthResult.denied 401 ("No certificate found with id " ++ kid),
         workers)) ∧
    (∀ kid cert, tok.kid = some kid →
      keys.find? (fun c => c.keyid = kid) = some cert →
      tok.sigValidFor = some kid → tok.exp = none →
      workerAuthBearer keys tok now urlName workers =
        (AuthResult.denied 401 "Token is missing the \"exp\" claim",
         workers)) := by
  refine ⟨fun h => ?_, fun kid h1 h2 => ?_, fun kid cert h1 h2 h3 h4 => ?_⟩
  · simp [workerAuthBearer, workerFromJwt, h, JwtError.message]
  · simp [workerAuthBearer, workerFromJwt, h1, h2, JwtError.message]
  · simp [workerAuthBearer, workerFromJwt, h1, h2, h3, h4, JwtError.message]

/-- C9 witness: the three failures on concrete tokens against one
loaded certificate. -/
theorem workerAuthBearer_failures_witness :
    (workerAuthBearer [⟨"k1", []⟩] { kid := none } 0 "w1" [] =
      (AuthResult.denied 401 "Token is missing required `kid` header", [])) ∧
    (workerAuthBearer [⟨"k1", []⟩] { kid := some "k2" } 0 "w1" [] =
      (AuthResult.denied 401 "No certificate found with id k2", [])) ∧
    (workerAuthBearer [⟨"k1", []⟩]
        { kid := some "k1", sigValidFor := some "k1", exp := none } 0 "w1" [] =
      (AuthResult.denied 401 "Token is missing the \"exp\" claim", [])) :=
  ⟨(workerAuthBearer_failures [⟨"k1", []⟩] { kid := none } 0 "w1" []).1 rfl,
   (workerAuthBearer_failures [⟨"k1", []⟩] { kid := some "k2" } 0 "w1" []).2.1
     "k2" rfl (by decide),
   (workerAuthBearer_failures [⟨"k1", []⟩]
       { kid := some "k1", sigValidFor := some "k1", exp := none }
       0 "w1" []).2.2 "k1" ⟨"k1", []⟩ rfl (by decide) rfl rfl⟩

/-- C3: the acked-check sweep re-queues every RUNNING, never-acked run
whose most recent RunEvents entry is more than 15 seconds old: the run
reappears with status QUEUED (the status a check-in candidate must
have) and no worker reference, and a RunEvents row is appended. -/
theorem checkAcked_requeues (db : DB) (now t : Nat) (r : Run)
    (hr : r ∈ db.runs) (hs : r.status = BuildStatus.RUNNING)
    (ha : r.running_acked = false) (ht : lastEventTime db r.id = some t)
    (hexp : t + 15 < now) :
    { r with status := BuildStatus.QUEUED, worker := none } ∈
      (checkAcked db now).runs ∧
    (⟨r.id, BuildStatus.QUEUED, now⟩ : RunEvent) ∈ (checkAcked db now).events := by
  have hget : ackExpired db now r = true := by
    simp [ackExpired, hs, ha, ht]
    exact hexp
  constructor
  · simp only [checkAcked]
    refine List.mem_map.mpr ⟨r, hr, ?_⟩
    simp [hget]
  · simp only [checkAcked]
    refine List.mem_append.mpr (Or.inr ?_)
    exact List.mem_map.mpr ⟨r, List.mem_filter.mpr ⟨hr, hget⟩, rfl⟩

/-- C3 witness: the 16-second-old unacked run of `exAckDB` is requeued
with its worker cleared and a QUEUED event appended. -/
theorem checkAcked_requeues_witness :
    ({ id := 1, build := 1, rname := "run0",
       status := BuildStatus.QUEUED, host_tag := "aarch96",
       queue_priority := 0, worker := none, running_acked := false } : Run) ∈
      (checkAcked exAckDB 16).runs ∧
    (⟨1, BuildStatus.QUEUED, 16⟩ : RunEvent) ∈ (checkAcked exAckDB 16).events :=
  checkAcked_requeues exAckDB 16 0
    { id := 1, build := 1, rname := "run0",
      status := BuildStatus.RUNNING, host_tag := "aarch96",
      worker := some "w1", running_acked := false }
    (by decide) rfl rfl rfl (by decide)

/-- C4 (amended): when a step after selection fails, the handler resets
the popped run to worker = null and status QUEUED, records no
additional RunEvents row itself, and propagates the error — but the
RunEvents row appended and committed at selection remains. -/
theorem workerGetDispatch_rollback (db : DB) (w : Worker) (now : Nat)
    (r : Run) (db2 : DB) (h : popQueued db w now = (some r, db2)) :
    (workerGetDispatch db w now true).1 = Except.error "storage failure" ∧
    (∀ x ∈ (workerGetDispatch db w now true).2.runs,
      x.id = r.id → x.status = BuildStatus.QUEUED ∧ x.worker = none) ∧
    (workerGetDispatch db w now true).2.events = db2.events := by
  have hd : workerGetDispatch db w now true =
      (Except.error "storage failure",
       { db2 with runs := db2.runs.map (fun x =>
           if x.id = r.id then
             { x with worker := none, status := BuildStatus.QUEUED }
           else x) }) := by
    unfold workerGetDispatch
    rw [h]
    rfl
  rw [hd]
  refine ⟨rfl, ?_, rfl⟩
  intro x hx hid
  rcases List.mem_map.mp hx with ⟨y, _, hxy⟩
  by_cases hyid : y.id = r.id
  · rw [if_pos hyid] at hxy
    rw [← hxy]
    exact ⟨rfl, rfl⟩
  · rw [if_neg hyid] at hxy
    rw [← hxy] at hid
    exact absurd hid hyid

/-- C4 witness: the amended rollback behaviour on the single-run
state. -/
theorem workerGetDispatch_rollback_witness :
    (workerGetDispatch exOneRunDB exW 5 true).1 =
      Except.error "storage failure" ∧
    (∀ x ∈ (workerGetDispatch exOneRunDB exW 5 true).2.runs,
      x.id = 1 → x.status = BuildStatus.QUEUED ∧ x.worker = none) :=
  have h := workerGetDispatch_rollback exOneRunDB exW 5
    { id := 1, build := 1, rname := "run0",
      status := BuildStatus.QUEUED, host_tag := "aarch96" }
    (popQueued exOneRunDB exW 5).2 (by decide)
  ⟨h.1, h.2.1⟩

/-- C4 counterexample: after the rolled-back assignment the run is back
to QUEUED with no worker, yet a RunEvents row for the aborted
assignment (run 1, RUNNING, time 5) is still recorded — refuting the
claim that no such row remains. -/
theorem workerGetDispatch_rollback_cex :
    (workerGetDispatch exOneRunDB exW 5 true).1 =
      Except.error "storage failure" ∧
    ((workerGetDispatch exOneRunDB exW 5 true).2.runs.map
        (fun r => (r.status, r.worker))) = [(BuildStatus.QUEUED, none)] ∧
    (workerGetDispatch exOneRunDB exW 5 true).2.events =
      [⟨1, BuildStatus.RUNNING, 5⟩] :=
  ⟨rfl, by decide, by decide⟩

/-- C2: a successful pop returns a run of the candidate set that no
other candidate beats on `(queue_priority DESC, id ASC)`, and the only
run row the dispatch changes is the selected one (every other run, in
particular a lower-priority QUEUED sibling, is left untouched). -/
theorem popQueued_priority (db : DB) (w : Worker) (now : Nat) (r : Run)
    (db2 : DB) (h : popQueued db w now = (some r, db2)) :
    r ∈ candidates db w ∧
    (∀ x ∈ candidates db w, better x r = false) ∧
    db2.runs = db.runs.map (fun x =>
      if x.id = r.id then
        { x with status := BuildStatus.RUNNING, worker := some w.wname,
                 running_acked := false }
      else x) := by
  unfold popQueued at h
  cases hsel : selectBest (candidates db w) with
  | none =>
    rw [hsel] at h
    simp at h
  | some b =>
    rw [hsel] at h
    have h2 : (some b, assignRun db w b now) = (some r, db2) := h
    have hb : b = r := by
      have := congrArg Prod.fst h2
      simpa using this
    subst hb
    have hdb : assignRun db w b now = db2 := congrArg Prod.snd h2
    obtain ⟨hmem, hopt⟩ := selectBest_spec (candidates db w) b hsel
    refine ⟨hmem, hopt, ?_⟩
    rw [← hdb]
    rfl

/-- C2 witness: on the `test_worker_queue_priority` state the dispatch
selects `r2` (priority 2) and the state update leaves `r1` QUEUED. -/
theorem popQueued_priority_witness :
    (({ id := 2, build := 1, rname := "r2", status := BuildStatus.QUEUED,
        host_tag := "aarch96", queue_priority := 2 } : Run) ∈
      candidates exPrioDB exW) ∧
    (popQueued exPrioDB exW 5).2.runs.map (fun x => (x.rname, x.status)) =
      [("r1", BuildStatus.QUEUED), ("r2", BuildStatus.RUNNING)] :=
  have h := popQueued_priority exPrioDB exW 5
    { id := 2, build := 1, rname := "r2", status := BuildStatus.QUEUED,
      host_tag := "aarch96", queue_priority := 2 }
    (popQueued exPrioDB exW 5).2 (by decide)
  ⟨h.1, by decide⟩

/-- C1: (1) a run popped for a worker in a project with
`synchronous_builds=true` has no run on an earlier build of the same
project in an active status; (2) a run is ever blocked only because of
an active run on a *strictly earlier* build of its *own* project — so
runs of the same build never block each other and other projects are
unaffected; (3) runs of projects without `synchronous_builds` are never
blocked. -/
theorem popQueued_sync_blocking (db : DB) (w : Worker) (now : Nat) :
    (∀ r db2 b p, popQueued db w now = (some r, db2) →
      db.findBuild r.build = some b → db.findProject b.proj = some p →
      p.sync_builds = true →
      ∀ r2 ∈ db.runs, ∀ b2, db.findBuild r2.build = some b2 →
        b2.proj = b.proj → b2.bid < b.bid → r2.status.isActive = false) ∧
    (∀ r, blockedSync db r = true →
      ∃ b p, db.findBuild r.build = some b ∧
        db.findProject b.proj = some p ∧ p.sync_builds = true ∧
        ∃ r2 ∈ db.runs, ∃ b2, db.findBuild r2.build = some b2 ∧
          b2.proj = b.proj ∧ b2.bid < b.bid ∧ r2.status.isActive = true) ∧
    (∀ r b p, db.findBuild r.build = some b →
      db.findProject b.proj = some p → p.sync_builds = false →
      blockedSync db r = false) := by
  refine ⟨?_, ?_, ?_⟩
  · intro r db2 b p h hb hp hsync r2 hr2 b2 hb2 hproj hbid
    have hmem : r ∈ candidates db w := by
      unfold popQueued at h
      cases hsel : selectBest (candidates db w) with
      | none => rw [hsel] at h; simp at h
      | some c =>
        rw [hsel] at h
        have hc : c = r := by
          have := congrArg Prod.fst
            (h : (some c, assignRun db w c now) = (some r, db2))
          simpa using this
        exact hc ▸ (selectBest_spec (candidates db w) c hsel).1
    have hnb : blockedSync db r = false := by
      unfold candidates at hmem
      have := List.of_mem_filter hmem
      simp only [Bool.and_eq_true, Bool.not_eq_true'] at this
      exact this.2
    rw [blockedSync_eq db r b p hb hp] at hnb
    simp only [hsync, Bool.true_and, List.any_eq_false] at hnb
    have h5 := hnb r2 hr2
    rw [runActiveEarlier_eq db b r2 b2 hb2] at h5
    simp [hproj, hbid] at h5
    exact h5
  · intro r hbl
    cases hb : db.findBuild r.build with
    | none =>
      rw [blockedSync_build_none db r hb] at hbl
      simp at hbl
    | some b =>
      cases hp : db.findProject b.proj with
      | none =>
        rw [blockedSync_proj_none db r b hb hp] at hbl
        simp at hbl
      | some p =>
        rw [blockedSync_eq db r b p hb hp] at hbl
        simp only [Bool.and_eq_true, List.any_eq_true] at hbl
        obtain ⟨hsync, r2, hr2, hre⟩ := hbl
        refine ⟨b, p, rfl, hp, hsync, r2, hr2, ?_⟩
        cases hb2 : db.findBuild r2.build with
        | none =>
          rw [runActiveEarlier_none db b r2 hb2] at hre
          simp at hre
        | some b2 =>
          rw [runActiveEarlier_eq db b r2 b2 hb2] at hre
          simp only [Bool.and_eq_true, decide_eq_true_eq] at hre
          exact ⟨b2, rfl, hre.1.1, hre.1.2, hre.2⟩
  · intro r b p hb hp hsync
    rw [blockedSync_eq db r b p hb hp, hsync]
    simp

/-- C1 witness: on `exSyncDB2` the dispatcher pops the build-2 run of
the sync project (the build-1 run is FAILED, i.e. not active), and on
`exSyncDB` the non-sync project run `p2b1r1` is never blocked. -/
theorem popQueued_sync_blocking_witness :
    ({ id := 1, build := 1, rname := "p1b1r1",
       status := BuildStatus.FAILED, host_tag := "amd64" } : Run).status.isActive
        = false ∧
    blockedSync exSyncDB
      { id := 4, build := 3, rname := "p2b1r1",
        status := BuildStatus.QUEUED, host_tag := "aarch97" } = false :=
  ⟨(popQueued_sync_blocking exSyncDB2 exW64 7).1
    { id := 2, build := 2, rname := "p1b2r1",
      status := BuildStatus.QUEUED, host_tag := "aarch64" }
    (popQueued exSyncDB2 exW64 7).2
    { id := 2, proj := "job-1", bid := 2, status := BuildStatus.QUEUED }
    ⟨"job-1", true⟩ (by decide) (by decide) (by decide) rfl
    { id := 1, build := 1, rname := "p1b1r1",
      status := BuildStatus.FAILED, host_tag := "amd64" }
    (by decide)
    { id := 1, proj := "job-1", bid := 1, status := BuildStatus.FAILED }
    (by decide) rfl (by decide),
   (popQueued_sync_blocking exSyncDB exW 5).2.2
    { id := 4, build := 3, rname := "p2b1r1",
      status := BuildStatus.QUEUED, host_tag := "aarch97" }
    { id := 3, proj := "job-2", bid := 1, status := BuildStatus.QUEUED }
    ⟨"job-2", false⟩ (by decide) (by decide) rfl⟩

/-- C5: a check-in dispatches nothing and leaves the state unchanged
when the worker reports `available_runners=0`, or reports `disk_free`
below the 30 GB threshold, or is a `surges_only` worker and no surge
marker exists for a tag matching a queued run. -/
theorem workerCheckin_no_dispatch (db : DB) (w : Worker)
    (args : CheckinArgs) (now : Nat)
    (h : args.available_runners = 0 ∨
         (∃ d, args.disk_free = some d ∧ d < diskFreeThreshold) ∨
         (w.surges_only = true ∧
           ∀ r ∈ db.runs, r.status = BuildStatus.QUEUED →
             ∀ t ∈ effectiveTags w, globMatch r.host_tag t = true →
               db.surges.contains t = false)) :
    workerCheckin db w args now = (none, db) := by
  rcases h with h | ⟨d, hd, hlt⟩ | ⟨hso, hno⟩
  · simp [workerCheckin, h]
  · have hav : workerAvailable args = false := by
      rw [workerAvailable, hd]
      simp only [decide_eq_false_iff_not, not_le]
      exact hlt
    simp [workerCheckin, hav]
  · have hc : candidates db w = [] := by
      unfold candidates
      rw [List.filter_eq_nil_iff]
      intro r hr
      by_cases hq : r.status = BuildStatus.QUEUED
      · have ht : tagMatches w db.surges r = false := by
          unfold tagMatches
          rw [hso]
          show (effectiveTags w).any
            (fun t => db.surges.contains t && globMatch r.host_tag t) = false
          rw [List.any_eq_false]
          intro t htmem
          cases hglob : globMatch r.host_tag t
          · simp only [hglob, Bool.and_false]
            exact fun hh => nomatch hh
          · have hct := hno r hr hq t htmem hglob
            simp only [hct, Bool.false_and]
            exact fun hh => nomatch hh
        simp [hq, ht]
      · simp [hq]
    simp [workerCheckin, popQueued, hc, selectBest]

/-- C5 witness: the three no-dispatch conditions on concrete states —
zero runners, 20 GB of free disk, and a surges-only worker with no
marker. -/
theorem workerCheckin_no_dispatch_witness :
    workerCheckin exOneRunDB exW ⟨0, none⟩ 5 = (none, exOneRunDB) ∧
    workerCheckin exOneRunDB exW ⟨1, some 20000000000⟩ 5 =
      (none, exOneRunDB) ∧
    workerCheckin exOneRunDB { exW with surges_only := true } ⟨1, none⟩ 5 =
      (none, exOneRunDB) :=
  ⟨workerCheckin_no_dispatch exOneRunDB exW ⟨0, none⟩ 5 (Or.inl rfl),
   workerCheckin_no_dispatch exOneRunDB exW ⟨1, some 20000000000⟩ 5
     (Or.inr (Or.inl ⟨20000000000, rfl, by decide⟩)),
   workerCheckin_no_dispatch exOneRunDB { exW with surges_only := true }
     ⟨1, none⟩ 5 (Or.inr (Or.inr ⟨rfl, by decide⟩))⟩

/-- C6: after a queue-check sweep (flapping detection on), every tag
with a positive number of queued runs left unclaimed by the supply
computation has a surge-marker whose content is the id of a
surge-started notification (pre-existing markers are assumed to carry
such ids, as the sweep itself creates them); and a pre-existing marker
is deleted only when its tag is no longer over supply *and* the marker
is at least 300 seconds old. -/
theorem checkQueue_markers (db : DB) (workers : List Worker)
    (markers : List Marker) (now ratio : Nat)
    (hinv : ∀ m ∈ markers, m.content = notifySurgeStarted m.tag) :
    (∀ tag, 0 < unclaimedCount db workers ratio tag →
      ∃ m ∈ (checkQueue db workers markers now ratio true).markers,
        m.tag = tag ∧ m.content = notifySurgeStarted tag) ∧
    (∀ m ∈ markers,
      m ∉ (checkQueue db workers markers now ratio true).markers →
      unclaimedCount db workers ratio m.tag = 0 ∧ m.mtime + 300 ≤ now) := by
  constructor
  · intro tag hpos
    have htag : tag ∈ surgeTagsOf db workers ratio :=
      (surgeTags_iff ((afterRoundRobin db workers ratio).filter
        (fun p => p.2)) tag).mpr hpos
    obtain ⟨m, hm, htag2⟩ := createMarkers_covers now
      (cleanupMarkers true now (surgeTagsOf db workers ratio) markers).1
      (surgeTagsOf db workers ratio) tag htag
    refine ⟨m, hm, htag2, ?_⟩
    have hcontent := createMarkers_content now
      (cleanupMarkers true now (surgeTagsOf db workers ratio) markers).1
      (surgeTagsOf db workers ratio)
      (fun m2 hm2 => hinv m2
        (cleanupMarkers_subset true now _ markers m2 hm2))
      m hm
    rw [htag2] at hcontent
    exact hcontent
  · intro m hm hnot
    have hnc : m ∉ (cleanupMarkers true now
        (surgeTagsOf db workers ratio) markers).1 :=
      fun hcm => hnot (createMarkers_preserve now _ _ m hcm)
    obtain ⟨hcontains, hage⟩ :=
      cleanupMarkers_drop true now _ markers m hm hnc
    constructor
    · by_contra hne
      have hpos : 0 < unclaimedCount db workers ratio m.tag :=
        Nat.pos_of_ne_zero hne
      have hmemtag : m.tag ∈ surgeTagsOf db workers ratio :=
        (surgeTags_iff ((afterRoundRobin db workers ratio).filter
          (fun p => p.2)) m.tag).mpr hpos
      have hc2 : (surgeTagsOf db workers ratio).contains m.tag = true :=
        List.elem_iff.mpr hmemtag
      rw [hcontains] at hc2
      cases hc2
    · simp only [Bool.and_true] at hage
      have := of_decide_eq_false hage
      omega

/-- C6 witness: with three queued `amd64` runs (exact supply of the
one worker) a 400-second-old marker is deleted by the sweep, and the
theorem yields that `amd64` is not over supply and the marker was at
least 300 seconds old; on the four-run state the sweep creates the
`amd64` marker containing the surge-started id. -/
theorem checkQueue_markers_witness :
    (unclaimedCount exSurgeDB2 [exSurgeW] 3 "amd64" = 0 ∧
      exMarker.mtime + 300 ≤ 1400) ∧
    (checkQueue exSurgeDB [exSurgeW] [] 1000 3 true).markers =
      [⟨"amd64", 1000, notifySurgeStarted "amd64"⟩] :=
  ⟨(checkQueue_markers exSurgeDB2 [exSurgeW] [exMarker] 1400 3
      (by decide)).2 exMarker (by decide) (by decide),
   by decide⟩

end JobServ
